import Mathlib

/-!
Verification of `jules-scratch/verification/verify_landing_page_flow.py`.

The script drives a Playwright-controlled browser through a fixed six-step
sequence: navigate to the landing address, wait for the landing heading,
screenshot, click the login button, wait for the welcome heading, screenshot.
We embed the script shallowly: the external world (the target web application
and the filesystem) is explicit data, each Playwright call becomes a step that
either updates the state or aborts with an error, and `run` / `mainBlock` mirror the
Python function `run(page)` and the `__main__` block statement by statement.
-/

set_option autoImplicit false

/-- Substring test on character lists: `isInfixOfL n h` is true iff `n` occurs
contiguously inside `h`. -/
def isInfixOfL (n : List Char) : List Char → Bool
  | [] => n.isEmpty
  | c :: t => n.isPrefixOf (c :: t) || isInfixOfL n t

/-- The characters of a string, lowercased (ASCII letters fold to lowercase,
as `str.lower()` does on them). -/
def lowerChars (s : String) : List Char := s.data.map Char.toLower

/-- Playwright accessible-name matching for a plain string `name` argument, as
used by `page.get_by_role(role, name=...)` in the script.  The Playwright API
default is `exact=False`: the match is case-insensitive and succeeds when the
pattern occurs as a substring of the accessible name. -/
def nameMatches (pattern actual : String) : Bool :=
  isInfixOfL (lowerChars pattern) (lowerChars actual)

/-- Number of elements of a given role on the page whose accessible name
matches `pattern` under Playwright name matching. -/
def countMatches (names : List String) (pattern : String) : Nat :=
  (names.filter (fun s => nameMatches pattern s)).length

/-- Error taxonomy of the run (spec section 7): the three failure conditions a
step can abort with.  `navigationError` abstracts the network failure raised by
`page.goto` on an unreachable address; `visibilityTimeout` abstracts the
assertion timeout of `expect(...).to_be_visible()` when no element matches;
`elementResolutionError` abstracts a missing or ambiguous interactive control
(a Playwright strict-mode violation or a click that never resolves its
locator). -/
inductive Err where
  | navigationError
  | visibilityTimeout
  | elementResolutionError
deriving DecidableEq, Repr

/-- The browser operations the script issues, one constructor per external
capability it consumes. -/
inductive Op where
  | goto (url : String)
  | expectHeadingVisible (name : String)
  | screenshot (path : String)
  | clickButton (name : String)
deriving DecidableEq, Repr

/-- The landing address the script navigates to (`page.goto` argument). -/
def landingURL : String := "http://localhost:5000"

/-- Accessible name of the landing heading the script waits for. -/
def landingHeading : String := "The Future of AI Automation is Here"

/-- Accessible name of the login control the script clicks. -/
def loginLabel : String := "Login"

/-- Accessible name of the heading expected after the login click. -/
def welcomeHeading : String := "Welcome to AuraOS"

/-- Output path of the first screenshot. -/
def landingShotPath : String := "jules-scratch/verification/landing_page.png"

/-- Output path of the second screenshot. -/
def loginShotPath : String := "jules-scratch/verification/login_page.png"

/-- Observable behaviour of the external target web application, the data the
six browser calls of the script can see.  `reachable` says whether the landing
address answers; `landingHeadings` and `landingButtons` list the accessible
names of the headings and buttons rendered on the landing view (as they become
visible within the assertion timeout); `afterClickHeadings` lists the heading
names that become visible within the timeout after the login control is
activated.  `landingView` and `loginView` are the raw image data of the two
rendered views that a screenshot encodes. -/
structure TargetApp where
  reachable : Bool
  landingHeadings : List String
  landingButtons : List String
  afterClickHeadings : List String
  landingView : List Nat
  loginView : List Nat
deriving DecidableEq, Repr

/-- The filesystem visible to the script: an association of paths to file
contents (byte lists).  Only the two screenshot writes touch it. -/
abbrev Fs : Type := List (String × List Nat)

/-- Write `content` at `path`, overwriting an existing file in place and
appending a fresh entry otherwise. -/
def Fs.set : Fs → String → List Nat → Fs
  | [], p, c => [(p, c)]
  | (q, d) :: rest, p, c => if q = p then (p, c) :: rest else (q, d) :: Fs.set rest p c

/-- Content of the file at `path`, if present. -/
def Fs.lookup : Fs → String → Option (List Nat)
  | [], _ => none
  | (q, c) :: rest, p => if q = p then some c else Fs.lookup rest p

/-- The paths present on the filesystem, in order. -/
def Fs.paths (fs : Fs) : List String := fs.map Prod.fst

/-- The 8-byte PNG signature every PNG file begins with. -/
def pngSignature : List Nat := [137, 80, 78, 71, 13, 10, 26, 10]

/-- The bytes `page.screenshot` writes for a rendered view: a PNG file, i.e.
the PNG signature followed by the encoded image data.  In particular the file
is never empty. -/
def pngBytes (view : List Nat) : List Nat := pngSignature ++ view

/-- State threaded through the run: the filesystem and the trace of browser
operations issued so far. -/
structure RunState where
  fs : Fs
  trace : List Op
deriving DecidableEq, Repr

deriving instance DecidableEq for Except

/-- `page.goto(landingURL)`: succeeds iff the target address is reachable,
otherwise the navigation raises, abstracted as `navigationError`. -/
def navigate (app : TargetApp) : Except Err Unit :=
  if app.reachable then .ok () else .error .navigationError

/-- `expect(page.get_by_role("heading", name=pattern)).to_be_visible()`:
succeeds iff exactly one heading matches.  With no match the assertion times
out (`visibilityTimeout`); with several matches the locator is ambiguous and
the strict-mode assertion fails (`elementResolutionError`). -/
def expectVisible (names : List String) (pattern : String) : Except Err Unit :=
  match countMatches names pattern with
  | 0 => .error .visibilityTimeout
  | 1 => .ok ()
  | _ + 2 => .error .elementResolutionError

/-- `page.get_by_role("button", name=pattern).click()`: succeeds iff exactly
one button matches; a missing or ambiguous control fails with
`elementResolutionError` (spec section 7 classifies both under that kind). -/
def resolveAndClick (names : List String) (pattern : String) : Except Err Unit :=
  if countMatches names pattern = 1 then .ok () else .error .elementResolutionError

/-- Embedding of the Python function `run(page)`, statement by statement.  The
result is the final state on success, or the error together with the state at
the moment of the abort.  Each step first records the operation it issues in
the trace; a failing step aborts the rest of the sequence (an uncaught Python
exception propagates out of `run`). -/
def run (app : TargetApp) (fs0 : Fs) : Except (Err × RunState) RunState :=
  let t1 : List Op := [Op.goto landingURL]
  match navigate app with
  | .error e => .error (e, ⟨fs0, t1⟩)
  | .ok _ =>
    let t2 := t1 ++ [Op.expectHeadingVisible landingHeading]
    match expectVisible app.landingHeadings landingHeading with
    | .error e => .error (e, ⟨fs0, t2⟩)
    | .ok _ =>
      let t3 := t2 ++ [Op.screenshot landingShotPath]
      let fs1 := fs0.set landingShotPath (pngBytes app.landingView)
      let t4 := t3 ++ [Op.clickButton loginLabel]
      match resolveAndClick app.landingButtons loginLabel with
      | .error e => .error (e, ⟨fs1, t4⟩)
      | .ok _ =>
        let t5 := t4 ++ [Op.expectHeadingVisible welcomeHeading]
        match expectVisible app.afterClickHeadings welcomeHeading with
        | .error e => .error (e, ⟨fs1, t5⟩)
        | .ok _ =>
          let t6 := t5 ++ [Op.screenshot loginShotPath]
          .ok ⟨fs1.set loginShotPath (pngBytes app.loginView), t6⟩

/-- The six browser operations of the script, in source order. -/
def fullScript : List Op :=
  [Op.goto landingURL,
   Op.expectHeadingVisible landingHeading,
   Op.screenshot landingShotPath,
   Op.clickButton loginLabel,
   Op.expectHeadingVisible welcomeHeading,
   Op.screenshot loginShotPath]

/-- A target application on which every step of the script succeeds: the
landing address answers, exactly one heading matches the landing heading text,
exactly one button matches the login label, and exactly one heading matches the
welcome text after the click. -/
def TargetApp.wellBehaved (app : TargetApp) : Bool :=
  app.reachable &&
  countMatches app.landingHeadings landingHeading == 1 &&
  countMatches app.landingButtons loginLabel == 1 &&
  countMatches app.afterClickHeadings welcomeHeading == 1

/-- Resource bookkeeping for the launched browser and its page: whether the
browser (and with it its only page) is still open, and how many times each has
been released. -/
structure Browser where
  isOpen : Bool
  browserCloses : Nat
  pageCloses : Nat
deriving DecidableEq, Repr

/-- `browser.close()`: closing an open browser also closes the page opened in
it; closing an already-closed browser is a no-op. -/
def closeBrowser (b : Browser) : Browser :=
  if b.isOpen then
    { isOpen := false, browserCloses := b.browserCloses + 1, pageCloses := b.pageCloses + 1 }
  else b

/-- Teardown performed by the `with sync_playwright() as p:` block on exit
(normal or exceptional): stopping the Playwright driver terminates every
browser it launched that is still open, which releases the browser process and
its pages. -/
def stopPlaywright (b : Browser) : Browser := closeBrowser b

/-- Observable outcome of one process execution of the script. -/
structure MainResult where
  exitCode : Nat
  err : Option Err
  fs : Fs
  trace : List Op
  browserCloses : Nat
  pageCloses : Nat
deriving DecidableEq, Repr

/-- Embedding of the `if __name__ == "__main__":` block.  Inside the
`with sync_playwright() as p:` scope the script launches a browser, opens a
page, calls `run(page)` and then calls `browser.close()`.  When `run` raises,
the exception skips `browser.close()` and propagates out of the `with` block,
whose exit handler stops the Playwright driver either way; the uncaught
exception then terminates the process with a nonzero exit code. -/
def mainBlock (app : TargetApp) (fs0 : Fs) : MainResult :=
  let b0 : Browser := { isOpen := true, browserCloses := 0, pageCloses := 0 }
  match run app fs0 with
  | .ok s =>
    let b1 := closeBrowser b0
    let b2 := stopPlaywright b1
    { exitCode := 0, err := none, fs := s.fs, trace := s.trace,
      browserCloses := b2.browserCloses, pageCloses := b2.pageCloses }
  | .error (e, s) =>
    let b2 := stopPlaywright b0
    { exitCode := 1, err := some e, fs := s.fs, trace := s.trace,
      browserCloses := b2.browserCloses, pageCloses := b2.pageCloses }

/-- The process-ambient inputs a script could in principle consume: environment
variables and configuration files. -/
structure SysEnv where
  envVars : List (String × String)
  configFiles : List (String × List Nat)

/-- The script as a process: it receives the ambient system environment, as
every process does, but no statement of the source reads an environment
variable or a configuration file, so the environment is never consulted. -/
def scriptMain (_henv : SysEnv) (app : TargetApp) (fs0 : Fs) : MainResult :=
  mainBlock app fs0

/-- An operation mentions only the fixed constants hard-coded in the source:
the landing address, the two heading texts, the login label and the two output
paths. -/
def opFixed : Op → Bool
  | .goto u => u == landingURL
  | .expectHeadingVisible n => n == landingHeading || n == welcomeHeading
  | .screenshot p => p == landingShotPath || p == loginShotPath
  | .clickButton n => n == loginLabel

/-- Top-level statements of the module `verify_landing_page_flow.py`. -/
inductive TopStmt where
  | importFrom (module : String) (names : List String)
  | defRun
  | mainGuard
deriving DecidableEq, Repr

/-- The module, top-level statement by top-level statement: the import from
`playwright.sync_api`, the `def run`, and the `__main__` guard. -/
def verifyLandingPageFlowModule : List TopStmt :=
  [TopStmt.importFrom "playwright.sync_api" ["sync_playwright", "Page", "expect"],
   TopStmt.defRun,
   TopStmt.mainGuard]

/-- Effect of executing one top-level statement, `asMain` saying whether the
module runs as the main program.  An import binds names and a `def` binds a
function, neither launches a browser, navigates or writes a file; the guarded
block runs only when `__name__ == "__main__"`. -/
def execTop (asMain : Bool) (app : TargetApp) (fs0 : Fs) : TopStmt → Option MainResult
  | .importFrom _ _ => none
  | .defRun => none
  | .mainGuard => if asMain then some (mainBlock app fs0) else none

/-- Effects of loading the whole module. -/
def execModule (asMain : Bool) (app : TargetApp) (fs0 : Fs) : List MainResult :=
  verifyLandingPageFlowModule.filterMap (execTop asMain app fs0)

/-- A target application on which the whole script succeeds, used to witness
the success-path theorems. -/
def goodApp : TargetApp :=
  { reachable := true,
    landingHeadings := [landingHeading],
    landingButtons := [loginLabel],
    afterClickHeadings := [welcomeHeading],
    landingView := [1],
    loginView := [2, 3] }

example : nameMatches landingHeading "The Future of AI Automation is Here" = true := by decide
example : nameMatches landingHeading "the future of ai automation is here" = true := by decide
example : nameMatches landingHeading "Our promise: The Future of AI Automation is Here!" = true := by
  decide
example : nameMatches landingHeading "Welcome" = false := by decide

/-! Basic facts about the filesystem model. -/

theorem Fs.lookup_set_self (fs : Fs) (p : String) (c : List Nat) :
    Fs.lookup (Fs.set fs p c) p = some c := by
  induction fs with
  | nil => simp [Fs.set, Fs.lookup]
  | cons hd tl ih =>
    obtain ⟨q, d⟩ := hd
    by_cases h : q = p <;> simp [Fs.set, Fs.lookup, h, ih]

theorem Fs.lookup_set_ne (fs : Fs) (p q : String) (c : List Nat) (h : q ≠ p) :
    Fs.lookup (Fs.set fs p c) q = Fs.lookup fs q := by
  induction fs with
  | nil => simp [Fs.set, Fs.lookup, Ne.symm h]
  | cons hd tl ih =>
    obtain ⟨r, d⟩ := hd
    by_cases hr : r = p
    · subst hr
      simp [Fs.set, Fs.lookup, Ne.symm h]
    · simp [Fs.set, Fs.lookup, hr, ih]

theorem Fs.mem_paths_set (fs : Fs) (p : String) (c : List Nat) :
    p ∈ Fs.paths (Fs.set fs p c) := by
  induction fs with
  | nil => simp [Fs.set, Fs.paths]
  | cons hd tl ih =>
    obtain ⟨q, d⟩ := hd
    by_cases h : q = p
    · simp [Fs.set, Fs.paths, h]
    · simp [Fs.set, Fs.paths, h]
      simp [Fs.paths] at ih
      tauto

theorem Fs.paths_set_of_mem (fs : Fs) (p : String) (c : List Nat) (h : p ∈ Fs.paths fs) :
    Fs.paths (Fs.set fs p c) = Fs.paths fs := by
  induction fs with
  | nil => simp [Fs.paths] at h
  | cons hd tl ih =>
    obtain ⟨q, d⟩ := hd
    by_cases hq : q = p
    · subst hq; simp [Fs.set, Fs.paths]
    · have h2 : p ∈ Fs.paths tl := by
        simp [Fs.paths] at h ⊢
        rcases h with h | h
        · exact absurd h.symm hq
        · exact h
      have h3 := ih h2
      simp [Fs.paths] at h3
      simp [Fs.set, Fs.paths, hq, h3]

/-! Characterization of `run`, one lemma per abort point and one for the
successful pass. -/

theorem run_unreachable_eq (app : TargetApp) (fs0 : Fs) (h : app.reachable = false) :
    run app fs0 = .error (.navigationError, ⟨fs0, List.take 1 fullScript⟩) := by
  simp [run, navigate, fullScript, h]

theorem run_noLandingHeading_eq (app : TargetApp) (fs0 : Fs) (hr : app.reachable = true)
    (h : countMatches app.landingHeadings landingHeading = 0) :
    run app fs0 = .error (.visibilityTimeout, ⟨fs0, List.take 2 fullScript⟩) := by
  simp [run, navigate, expectVisible, fullScript, hr, h]

theorem run_manyLandingHeadings_eq (app : TargetApp) (fs0 : Fs) (hr : app.reachable = true)
    (n : Nat) (h : countMatches app.landingHeadings landingHeading = n + 2) :
    run app fs0 = .error (.elementResolutionError, ⟨fs0, List.take 2 fullScript⟩) := by
  simp [run, navigate, expectVisible, fullScript, hr, h]

theorem run_loginBad_eq (app : TargetApp) (fs0 : Fs) (hr : app.reachable = true)
    (hh : countMatches app.landingHeadings landingHeading = 1)
    (hb : countMatches app.landingButtons loginLabel ≠ 1) :
    run app fs0 = .error (.elementResolutionError,
      ⟨fs0.set landingShotPath (pngBytes app.landingView), List.take 4 fullScript⟩) := by
  simp [run, navigate, expectVisible, resolveAndClick, fullScript, hr, hh, hb]

theorem run_noWelcome_eq (app : TargetApp) (fs0 : Fs) (hr : app.reachable = true)
    (hh : countMatches app.landingHeadings landingHeading = 1)
    (hb : countMatches app.landingButtons loginLabel = 1)
    (hw : countMatches app.afterClickHeadings welcomeHeading = 0) :
    run app fs0 = .error (.visibilityTimeout,
      ⟨fs0.set landingShotPath (pngBytes app.landingView), List.take 5 fullScript⟩) := by
  simp [run, navigate, expectVisible, resolveAndClick, fullScript, hr, hh, hb, hw]

theorem run_manyWelcome_eq (app : TargetApp) (fs0 : Fs) (hr : app.reachable = true)
    (hh : countMatches app.landingHeadings landingHeading = 1)
    (hb : countMatches app.landingButtons loginLabel = 1)
    (n : Nat) (hw : countMatches app.afterClickHeadings welcomeHeading = n + 2) :
    run app fs0 = .error (.elementResolutionError,
      ⟨fs0.set landingShotPath (pngBytes app.landingView), List.take 5 fullScript⟩) := by
  simp [run, navigate, expectVisible, resolveAndClick, fullScript, hr, hh, hb, hw]

theorem run_ok_eq (app : TargetApp) (fs0 : Fs) (hr : app.reachable = true)
    (hh : countMatches app.landingHeadings landingHeading = 1)
    (hb : countMatches app.landingButtons loginLabel = 1)
    (hw : countMatches app.afterClickHeadings welcomeHeading = 1) :
    run app fs0 = .ok
      ⟨(fs0.set landingShotPath (pngBytes app.landingView)).set loginShotPath
          (pngBytes app.loginView), fullScript⟩ := by
  simp [run, navigate, expectVisible, resolveAndClick, fullScript, hr, hh, hb, hw]

theorem wellBehaved_iff (app : TargetApp) : app.wellBehaved = true ↔
    app.reachable = true ∧
    countMatches app.landingHeadings landingHeading = 1 ∧
    countMatches app.landingButtons loginLabel = 1 ∧
    countMatches app.afterClickHeadings welcomeHeading = 1 := by
  simp [TargetApp.wellBehaved, Bool.and_eq_true, beq_iff_eq, and_assoc]

theorem Fs.mem_paths_set_mono (fs : Fs) (p q : String) (c : List Nat)
    (h : q ∈ Fs.paths fs) : q ∈ Fs.paths (Fs.set fs p c) := by
  induction fs with
  | nil => simp [Fs.paths] at h
  | cons hd tl ih =>
    obtain ⟨r, d⟩ := hd
    by_cases hr : r = p
    · subst hr
      simpa [Fs.set, Fs.paths] using (by simpa [Fs.paths] using h)
    · simp [Fs.paths] at h
      rcases h with h | h
      · simp [Fs.set, Fs.paths, hr, h]
      · have := ih (by simpa [Fs.paths] using h)
        simp [Fs.set, Fs.paths, hr] at this ⊢
        tauto

/-- Exhaustive description of the abort states of `run`: every failure leaves
the state at one of the four abort points, each a proper prefix of the six-step
sequence. -/
theorem run_error_elim (app : TargetApp) (fs0 : Fs) (e : Err) (s : RunState)
    (h : run app fs0 = .error (e, s)) :
    s = ⟨fs0, List.take 1 fullScript⟩ ∨
    s = ⟨fs0, List.take 2 fullScript⟩ ∨
    s = ⟨fs0.set landingShotPath (pngBytes app.landingView), List.take 4 fullScript⟩ ∨
    s = ⟨fs0.set landingShotPath (pngBytes app.landingView), List.take 5 fullScript⟩ := by
  by_cases hr : app.reachable = true
  · rcases hh : countMatches app.landingHeadings landingHeading with _ | _ | nh
    · rw [run_noLandingHeading_eq app fs0 hr hh] at h
      simp only [Except.error.injEq, Prod.mk.injEq] at h
      exact Or.inr (Or.inl h.2.symm)
    · by_cases hb : countMatches app.landingButtons loginLabel = 1
      · rcases hw : countMatches app.afterClickHeadings welcomeHeading with _ | _ | nw
        · rw [run_noWelcome_eq app fs0 hr hh hb hw] at h
          simp only [Except.error.injEq, Prod.mk.injEq] at h
          exact Or.inr (Or.inr (Or.inr h.2.symm))
        · rw [run_ok_eq app fs0 hr hh hb hw] at h
          exact absurd h (by simp)
        · rw [run_manyWelcome_eq app fs0 hr hh hb nw hw] at h
          simp only [Except.error.injEq, Prod.mk.injEq] at h
          exact Or.inr (Or.inr (Or.inr h.2.symm))
      · rw [run_loginBad_eq app fs0 hr hh hb] at h
        simp only [Except.error.injEq, Prod.mk.injEq] at h
        exact Or.inr (Or.inr (Or.inl h.2.symm))
    · rw [run_manyLandingHeadings_eq app fs0 hr nh hh] at h
      simp only [Except.error.injEq, Prod.mk.injEq] at h
      exact Or.inr (Or.inl h.2.symm)
  · rw [run_unreachable_eq app fs0 (by simpa using hr)] at h
    simp only [Except.error.injEq, Prod.mk.injEq] at h
    exact Or.inl h.2.symm

/-- Inversion for a successful run: the state is the fully executed script and
all four success conditions held on the target. -/
theorem run_ok_elim (app : TargetApp) (fs0 : Fs) (s : RunState)
    (h : run app fs0 = .ok s) :
    s = ⟨(fs0.set landingShotPath (pngBytes app.landingView)).set loginShotPath
        (pngBytes app.loginView), fullScript⟩ ∧
    app.reachable = true ∧
    countMatches app.landingHeadings landingHeading = 1 ∧
    countMatches app.landingButtons loginLabel = 1 ∧
    countMatches app.afterClickHeadings welcomeHeading = 1 := by
  by_cases hr : app.reachable = true
  · rcases hh : countMatches app.landingHeadings landingHeading with _ | _ | nh
    · rw [run_noLandingHeading_eq app fs0 hr hh] at h
      exact absurd h (by simp)
    · by_cases hb : countMatches app.landingButtons loginLabel = 1
      · rcases hw : countMatches app.afterClickHeadings welcomeHeading with _ | _ | nw
        · rw [run_noWelcome_eq app fs0 hr hh hb hw] at h
          exact absurd h (by simp)
        · rw [run_ok_eq app fs0 hr hh hb hw] at h
          simp only [Except.ok.injEq] at h
          exact ⟨h.symm, hr, by simp [hh], hb, by simp [hw]⟩
        · rw [run_manyWelcome_eq app fs0 hr hh hb nw hw] at h
          exact absurd h (by simp)
      · rw [run_loginBad_eq app fs0 hr hh hb] at h
        exact absurd h (by simp)
    · rw [run_manyLandingHeadings_eq app fs0 hr nh hh] at h
      exact absurd h (by simp)
  · rw [run_unreachable_eq app fs0 (by simpa using hr)] at h
    exact absurd h (by simp)

/-- The outcome of the main block when `run` completes. -/
theorem mainBlock_of_run_ok (app : TargetApp) (fs0 : Fs) (s : RunState)
    (h : run app fs0 = .ok s) :
    mainBlock app fs0 =
      { exitCode := 0, err := none, fs := s.fs, trace := s.trace,
        browserCloses := 1, pageCloses := 1 } := by
  simp [mainBlock, h, closeBrowser, stopPlaywright]

/-- The outcome of the main block when `run` aborts. -/
theorem mainBlock_of_run_error (app : TargetApp) (fs0 : Fs) (e : Err) (s : RunState)
    (h : run app fs0 = .error (e, s)) :
    mainBlock app fs0 =
      { exitCode := 1, err := some e, fs := s.fs, trace := s.trace,
        browserCloses := 1, pageCloses := 1 } := by
  simp [mainBlock, h, closeBrowser, stopPlaywright]

/-- Writing the two screenshots into an empty directory yields exactly the two
files, in write order. -/
theorem emptyFs_shots (c d : List Nat) :
    Fs.set (Fs.set [] landingShotPath c) loginShotPath d =
      [(landingShotPath, c), (loginShotPath, d)] := by
  simp [Fs.set, landingShotPath, loginShotPath]

/-- The filesystem a successful run leaves behind when started on an empty
directory: exactly the two screenshot files. -/
def goodFs : Fs :=
  [(landingShotPath, pngBytes goodApp.landingView),
   (loginShotPath, pngBytes goodApp.loginView)]

/-- A target that never answers at the landing address. -/
def unreachableApp : TargetApp :=
  { reachable := false,
    landingHeadings := [],
    landingButtons := [],
    afterClickHeadings := [],
    landingView := [],
    loginView := [] }

/-- A reachable target whose landing view renders no heading matching the
expected landing text, even case-insensitively. -/
def noHeadingApp : TargetApp :=
  { reachable := true,
    landingHeadings := ["Sign up now"],
    landingButtons := [loginLabel],
    afterClickHeadings := [welcomeHeading],
    landingView := [6],
    loginView := [7] }

/-- A target whose landing view renders two controls matching the login
label. -/
def twoLoginApp : TargetApp :=
  { reachable := true,
    landingHeadings := [landingHeading],
    landingButtons := [loginLabel, loginLabel],
    afterClickHeadings := [welcomeHeading],
    landingView := [8],
    loginView := [9] }

/-- A target whose landing heading differs from the expected text only in
letter case. -/
def caseVariantApp : TargetApp :=
  { reachable := true,
    landingHeadings := ["THE FUTURE OF AI AUTOMATION IS HERE"],
    landingButtons := [loginLabel],
    afterClickHeadings := [welcomeHeading],
    landingView := [4],
    loginView := [5] }

/-- C1: every invocation of `run` issues the six operations of `fullScript` in
their fixed order with no branching and no retries — a completed run's trace
is exactly the six steps (navigate, wait for the landing heading, landing
screenshot, click the login control, wait for the welcome heading, login
screenshot), and an aborted run's trace is an initial segment of that same
sequence, so no operation outside it and no repetition ever occurs. -/
theorem run_sixSteps (app : TargetApp) (fs0 : Fs) :
    (∀ s, run app fs0 = .ok s → s.trace = fullScript) ∧
    (∀ e s, run app fs0 = .error (e, s) →
      s.trace = List.take s.trace.length fullScript) := by
  constructor
  · intro s h
    rw [(run_ok_elim app fs0 s h).1]
  · intro e s h
    rcases run_error_elim app fs0 e s h with h1 | h1 | h1 | h1 <;> subst h1
    · show List.take 1 fullScript = List.take (List.take 1 fullScript).length fullScript
      decide
    · show List.take 2 fullScript = List.take (List.take 2 fullScript).length fullScript
      decide
    · show List.take 4 fullScript = List.take (List.take 4 fullScript).length fullScript
      decide
    · show List.take 5 fullScript = List.take (List.take 5 fullScript).length fullScript
      decide

/-- Witness for C1 at a concrete well-behaved target. -/
theorem run_sixSteps_witness :
    RunState.trace ⟨goodFs, fullScript⟩ = fullScript :=
  (run_sixSteps goodApp []).1 ⟨goodFs, fullScript⟩ (by decide)

/-- C2: against a well-behaved target (landing address reachable, landing
heading present, exactly one login control, welcome heading appearing after
the click) a full script execution from an empty output directory writes
exactly the two screenshot files at the two fixed paths, both non-empty, and
exits with code 0. -/
theorem mainBlock_success (app : TargetApp) (h : app.wellBehaved = true) :
    (mainBlock app []).exitCode = 0 ∧
    (mainBlock app []).fs =
      [(landingShotPath, pngBytes app.landingView),
       (loginShotPath, pngBytes app.loginView)] ∧
    pngBytes app.landingView ≠ [] ∧ pngBytes app.loginView ≠ [] := by
  obtain ⟨hr, hh, hb, hw⟩ := (wellBehaved_iff app).mp h
  have m := mainBlock_of_run_ok app [] _ (run_ok_eq app [] hr hh hb hw)
  refine ⟨by rw [m], ?_, by simp [pngBytes, pngSignature], by simp [pngBytes, pngSignature]⟩
  rw [m]
  exact emptyFs_shots (pngBytes app.landingView) (pngBytes app.loginView)

/-- Witness for C2 at a concrete well-behaved target. -/
theorem mainBlock_success_witness :
    (mainBlock goodApp []).exitCode = 0 ∧
    (mainBlock goodApp []).fs =
      [(landingShotPath, pngBytes goodApp.landingView),
       (loginShotPath, pngBytes goodApp.loginView)] ∧
    pngBytes goodApp.landingView ≠ [] ∧ pngBytes goodApp.loginView ≠ [] :=
  mainBlock_success goodApp (by decide)

/-- C3 counterexample: a page whose landing heading text differs from the
expected text only in letter case.  No heading matches the expected text
exactly, so the claim predicts a VisibilityTimeout with no screenshot written;
but Playwright name matching with the default `exact=False` is
case-insensitive substring matching, so the locator still resolves and the run
completes, writing both screenshots. -/
theorem run_exactMatch_counterexample :
    caseVariantApp.landingHeadings = ["THE FUTURE OF AI AUTOMATION IS HERE"] ∧
    (("THE FUTURE OF AI AUTOMATION IS HERE" : String) == landingHeading) = false ∧
    run caseVariantApp [] = .ok
      ⟨[(landingShotPath, pngBytes caseVariantApp.landingView),
        (loginShotPath, pngBytes caseVariantApp.loginView)], fullScript⟩ := by
  decide

/-- C3 amended: for every reachable page whose landing view renders no heading
whose accessible name contains the landing heading text as a case-insensitive
substring, the run fails with VisibilityTimeout having issued only the
navigation and the first visibility wait, with the filesystem untouched — so
no screenshot file is written and in particular no login screenshot is
produced. -/
theorem run_noMatchingHeading (app : TargetApp) (fs0 : Fs)
    (hr : app.reachable = true)
    (h : countMatches app.landingHeadings landingHeading = 0) :
    run app fs0 = .error (.visibilityTimeout, ⟨fs0, List.take 2 fullScript⟩) ∧
    Op.screenshot landingShotPath ∉ List.take 2 fullScript ∧
    Op.screenshot loginShotPath ∉ List.take 2 fullScript :=
  ⟨run_noLandingHeading_eq app fs0 hr h, by decide, by decide⟩

/-- Witness for the amended C3 at a concrete heading-free target. -/
theorem run_noMatchingHeading_witness :
    run noHeadingApp [] = .error (.visibilityTimeout, ⟨[], List.take 2 fullScript⟩) ∧
    Op.screenshot landingShotPath ∉ List.take 2 fullScript ∧
    Op.screenshot loginShotPath ∉ List.take 2 fullScript :=
  run_noMatchingHeading noHeadingApp [] (by decide) (by decide)

/-- C4: when the click step resolves zero or several controls for the login
label (the page being reachable with the landing heading present and the
login screenshot not yet on disk), the run fails with elementResolutionError
at a state where the landing screenshot file exists and the login screenshot
file does not. -/
theorem run_loginResolution (app : TargetApp) (fs0 : Fs)
    (hr : app.reachable = true)
    (hh : countMatches app.landingHeadings landingHeading = 1)
    (hb : countMatches app.landingButtons loginLabel ≠ 1)
    (h0 : Fs.lookup fs0 loginShotPath = none) :
    run app fs0 = .error (.elementResolutionError,
      ⟨fs0.set landingShotPath (pngBytes app.landingView), List.take 4 fullScript⟩) ∧
    Fs.lookup (fs0.set landingShotPath (pngBytes app.landingView)) landingShotPath =
      some (pngBytes app.landingView) ∧
    Fs.lookup (fs0.set landingShotPath (pngBytes app.landingView)) loginShotPath =
      none := by
  refine ⟨run_loginBad_eq app fs0 hr hh hb,
    Fs.lookup_set_self fs0 landingShotPath (pngBytes app.landingView), ?_⟩
  rw [Fs.lookup_set_ne fs0 landingShotPath loginShotPath (pngBytes app.landingView)
    (by decide)]
  exact h0

/-- Witness for C4 at a concrete target with two login controls. -/
theorem run_loginResolution_witness :
    run twoLoginApp [] = .error (.elementResolutionError,
      ⟨Fs.set [] landingShotPath (pngBytes twoLoginApp.landingView),
       List.take 4 fullScript⟩) ∧
    Fs.lookup (Fs.set [] landingShotPath (pngBytes twoLoginApp.landingView))
      landingShotPath = some (pngBytes twoLoginApp.landingView) ∧
    Fs.lookup (Fs.set [] landingShotPath (pngBytes twoLoginApp.landingView))
      loginShotPath = none :=
  run_loginResolution twoLoginApp [] (by decide) (by decide) (by decide) (by decide)

/-- C5: with the target address unreachable, the run fails at the navigation
step with navigationError, having issued only the navigation operation and
leaving the filesystem exactly as it was — zero screenshot files are
produced. -/
theorem run_navigationFailure (app : TargetApp) (fs0 : Fs)
    (h : app.reachable = false) :
    run app fs0 = .error (.navigationError, ⟨fs0, List.take 1 fullScript⟩) ∧
    Op.screenshot landingShotPath ∉ List.take 1 fullScript ∧
    Op.screenshot loginShotPath ∉ List.take 1 fullScript :=
  ⟨run_unreachable_eq app fs0 h, by decide, by decide⟩

/-- Witness for C5 at a concrete unreachable target. -/
theorem run_navigationFailure_witness :
    run unreachableApp [] = .error (.navigationError, ⟨[], List.take 1 fullScript⟩) ∧
    Op.screenshot landingShotPath ∉ List.take 1 fullScript ∧
    Op.screenshot loginShotPath ∉ List.take 1 fullScript :=
  run_navigationFailure unreachableApp [] (by decide)

/-- C6: fail-fast — whenever `run` aborts, the operations issued so far form a
proper initial segment of the six-step sequence (no later navigation, wait,
click or screenshot is issued and no step is retried), the login screenshot is
never written, and a landing screenshot not yet reached leaves its path
untouched. -/
theorem run_failFast (app : TargetApp) (fs0 : Fs) (e : Err) (s : RunState)
    (h : run app fs0 = .error (e, s)) :
    s.trace = List.take s.trace.length fullScript ∧
    s.trace.length < fullScript.length ∧
    Fs.lookup s.fs loginShotPath = Fs.lookup fs0 loginShotPath ∧
    (Op.screenshot landingShotPath ∉ s.trace →
      Fs.lookup s.fs landingShotPath = Fs.lookup fs0 landingShotPath) := by
  rcases run_error_elim app fs0 e s h with h1 | h1 | h1 | h1 <;> subst h1
  · exact ⟨(by decide :
        List.take 1 fullScript = List.take (List.take 1 fullScript).length fullScript),
      (by decide : (List.take 1 fullScript).length < fullScript.length),
      rfl, fun _ => rfl⟩
  · exact ⟨(by decide :
        List.take 2 fullScript = List.take (List.take 2 fullScript).length fullScript),
      (by decide : (List.take 2 fullScript).length < fullScript.length),
      rfl, fun _ => rfl⟩
  · refine ⟨(by decide :
        List.take 4 fullScript = List.take (List.take 4 fullScript).length fullScript),
      (by decide : (List.take 4 fullScript).length < fullScript.length),
      Fs.lookup_set_ne fs0 landingShotPath loginShotPath _ (by decide), fun hp => ?_⟩
    exact absurd
      (show Op.screenshot landingShotPath ∈ List.take 4 fullScript by decide) hp
  · refine ⟨(by decide :
        List.take 5 fullScript = List.take (List.take 5 fullScript).length fullScript),
      (by decide : (List.take 5 fullScript).length < fullScript.length),
      Fs.lookup_set_ne fs0 landingShotPath loginShotPath _ (by decide), fun hp => ?_⟩
    exact absurd
      (show Op.screenshot landingShotPath ∈ List.take 5 fullScript by decide) hp

/-- Witness for C6 at a concrete failing run. -/
theorem run_failFast_witness :
    RunState.trace ⟨[], List.take 1 fullScript⟩ =
      List.take (RunState.trace ⟨[], List.take 1 fullScript⟩).length fullScript ∧
    (RunState.trace ⟨[], List.take 1 fullScript⟩).length < fullScript.length ∧
    Fs.lookup (RunState.fs ⟨[], List.take 1 fullScript⟩) loginShotPath =
      Fs.lookup [] loginShotPath ∧
    (Op.screenshot landingShotPath ∉ RunState.trace ⟨[], List.take 1 fullScript⟩ →
      Fs.lookup (RunState.fs ⟨[], List.take 1 fullScript⟩) landingShotPath =
        Fs.lookup [] landingShotPath) :=
  run_failFast unreachableApp [] Err.navigationError ⟨[], List.take 1 fullScript⟩
    (by decide)

/-- C7: on every execution path of the entry point — the run completing as
well as the run aborting with any error — the browser process and the page it
hosts are released exactly once: on success by the explicit close before the
scope exits, on failure by the teardown of the scoped Playwright acquisition,
which closes the browser left open when the exception skipped the explicit
close. -/
theorem mainBlock_teardown (app : TargetApp) (fs0 : Fs) :
    (mainBlock app fs0).browserCloses = 1 ∧ (mainBlock app fs0).pageCloses = 1 := by
  cases h : run app fs0 with
  | ok s => simp [mainBlock, h, closeBrowser, stopPlaywright]
  | error es =>
    obtain ⟨e, s⟩ := es
    simp [mainBlock, h, closeBrowser, stopPlaywright]

/-- C8: running the script twice in succession against well-behaved targets
yields the same filesystem as one run except for fresh contents: the second
execution overwrites the two fixed output paths with its own screenshots,
creates no additional file, and (carrying no state from the first run) issues
the same operation trace and exits with the same code. -/
theorem mainBlock_idempotent (app1 app2 : TargetApp) (fs0 : Fs)
    (h1 : app1.wellBehaved = true) (h2 : app2.wellBehaved = true) :
    Fs.paths (mainBlock app2 (mainBlock app1 fs0).fs).fs =
      Fs.paths (mainBlock app1 fs0).fs ∧
    Fs.lookup (mainBlock app2 (mainBlock app1 fs0).fs).fs landingShotPath =
      some (pngBytes app2.landingView) ∧
    Fs.lookup (mainBlock app2 (mainBlock app1 fs0).fs).fs loginShotPath =
      some (pngBytes app2.loginView) ∧
    (mainBlock app2 (mainBlock app1 fs0).fs).trace = (mainBlock app1 fs0).trace ∧
    (mainBlock app2 (mainBlock app1 fs0).fs).exitCode = (mainBlock app1 fs0).exitCode := by
  obtain ⟨hr1, hh1, hb1, hw1⟩ := (wellBehaved_iff app1).mp h1
  obtain ⟨hr2, hh2, hb2, hw2⟩ := (wellBehaved_iff app2).mp h2
  have m1 := mainBlock_of_run_ok app1 fs0 _ (run_ok_eq app1 fs0 hr1 hh1 hb1 hw1)
  have m2 := mainBlock_of_run_ok app2 (mainBlock app1 fs0).fs _
    (run_ok_eq app2 (mainBlock app1 fs0).fs hr2 hh2 hb2 hw2)
  have m1fs : (mainBlock app1 fs0).fs =
      (fs0.set landingShotPath (pngBytes app1.landingView)).set loginShotPath
        (pngBytes app1.loginView) := by rw [m1]
  have m1tr : (mainBlock app1 fs0).trace = fullScript := by rw [m1]
  have m1ec : (mainBlock app1 fs0).exitCode = 0 := by rw [m1]
  have m2fs : (mainBlock app2 (mainBlock app1 fs0).fs).fs =
      (((mainBlock app1 fs0).fs).set landingShotPath (pngBytes app2.landingView)).set
        loginShotPath (pngBytes app2.loginView) := by rw [m2]
  have m2tr : (mainBlock app2 (mainBlock app1 fs0).fs).trace = fullScript := by rw [m2]
  have m2ec : (mainBlock app2 (mainBlock app1 fs0).fs).exitCode = 0 := by rw [m2]
  have hmemL : landingShotPath ∈ Fs.paths (mainBlock app1 fs0).fs := by
    rw [m1fs]
    exact Fs.mem_paths_set_mono _ _ _ _
      (Fs.mem_paths_set fs0 landingShotPath (pngBytes app1.landingView))
  have hmemG : loginShotPath ∈ Fs.paths (mainBlock app1 fs0).fs := by
    rw [m1fs]
    exact Fs.mem_paths_set (fs0.set landingShotPath (pngBytes app1.landingView))
      loginShotPath (pngBytes app1.loginView)
  refine ⟨?_, ?_, ?_, ?_, ?_⟩
  · rw [m2fs]
    rw [Fs.paths_set_of_mem _ _ _
      (Fs.mem_paths_set_mono _ _ _ _ hmemG)]
    exact Fs.paths_set_of_mem _ _ _ hmemL
  · rw [m2fs,
      Fs.lookup_set_ne _ loginShotPath landingShotPath _ (by decide),
      Fs.lookup_set_self]
  · rw [m2fs, Fs.lookup_set_self]
  · rw [m2tr, m1tr]
  · rw [m2ec, m1ec]

/-- Witness for C8 at a concrete well-behaved target run twice. -/
theorem mainBlock_idempotent_witness :
    Fs.paths (mainBlock goodApp (mainBlock goodApp []).fs).fs =
      Fs.paths (mainBlock goodApp []).fs ∧
    Fs.lookup (mainBlock goodApp (mainBlock goodApp []).fs).fs landingShotPath =
      some (pngBytes goodApp.landingView) ∧
    Fs.lookup (mainBlock goodApp (mainBlock goodApp []).fs).fs loginShotPath =
      some (pngBytes goodApp.loginView) ∧
    (mainBlock goodApp (mainBlock goodApp []).fs).trace = (mainBlock goodApp []).trace ∧
    (mainBlock goodApp (mainBlock goodApp []).fs).exitCode =
      (mainBlock goodApp []).exitCode :=
  mainBlock_idempotent goodApp goodApp [] (by decide) (by decide)

/-- C9: two executions that differ only in ambient environment variables or
configuration state are indistinguishable — the script consumes neither, so
the whole observable outcome coincides — and every browser operation it ever
issues mentions only the constants fixed in the source: the landing address,
the two heading texts, the login label and the two output paths. -/
theorem script_envIndependent (e1 e2 : SysEnv) (app : TargetApp) (fs0 : Fs) :
    scriptMain e1 app fs0 = scriptMain e2 app fs0 ∧
    (scriptMain e1 app fs0).trace.all opFixed = true := by
  refine ⟨rfl, ?_⟩
  show (mainBlock app fs0).trace.all opFixed = true
  cases h : run app fs0 with
  | ok s =>
    rw [mainBlock_of_run_ok app fs0 s h, (run_ok_elim app fs0 s h).1]
    show fullScript.all opFixed = true
    decide
  | error es =>
    obtain ⟨e, s⟩ := es
    rw [mainBlock_of_run_error app fs0 e s h]
    rcases run_error_elim app fs0 e s h with h1 | h1 | h1 | h1 <;> subst h1
    · show (List.take 1 fullScript).all opFixed = true
      decide
    · show (List.take 2 fullScript).all opFixed = true
      decide
    · show (List.take 4 fullScript).all opFixed = true
      decide
    · show (List.take 5 fullScript).all opFixed = true
      decide

/-- C10: loading the module performs no browser or filesystem effect — both
the import statement and the function definition bind names only, and the
main block runs exactly when the module is executed as the main program. -/
theorem module_import_pure (app : TargetApp) (fs0 : Fs) :
    execModule false app fs0 = [] ∧
    execModule true app fs0 = [mainBlock app fs0] :=
  ⟨rfl, rfl⟩
